import Mathlib

/-!
Shallow embedding of the credit-ledger / payment-workflow core of the
zerocraft backend.  Pure Lean translations of the route handlers that
touch the ledger: coupon validation (coupons.routes.ts), payment create
and confirm (payments routers), payment-request submit / approve /
reject (paymentRequests.routes.ts and the admin router), the business
plan credit debit (businessPlans.routes.ts) and the admin absolute
credit override (admin router PATCH /users/:id/credits).

Database rows are record structures, the database is lists of rows, and
each handler is a function `DB → inputs → DB × Except Error Output`
returning the post-state together with the handler's result, so that
error paths that still mutate state (the gateway-declined branch) are
representable.  External nondeterminism (generated ids, orderIds, the
clock, the gateway response) is passed in as arguments.
-/

namespace Zerocraft

/-- A user account row (`User` in the Prisma schema); only the fields the
ledger core reads. -/
structure User where
  id : Nat
  credits : Int
deriving Repr, DecidableEq

/-- A coupon row. -/
structure Coupon where
  id : Nat
  code : String
  discountAmount : Int
  expiresAt : Int
  maxUses : Option Int
  usedCount : Int
  isActive : Bool
deriving Repr, DecidableEq

/-- A coupon-usage audit row. -/
structure CouponUsage where
  couponId : Nat
  userId : Nat
  usageType : String
deriving Repr, DecidableEq

/-- A payment row (gateway path). -/
structure Payment where
  id : Nat
  orderId : String
  userId : Nat
  productId : String
  productName : String
  amount : Int
  creditsAdded : Int
  status : String
  paymentMethod : String
  paymentKey : Option String
  couponId : Option Nat
deriving Repr, DecidableEq

/-- A manual bank-transfer payment request row. -/
structure PaymentRequest where
  id : Nat
  userId : Nat
  depositorName : String
  amount : Int
  creditsToAdd : Int
  status : String
  adminNote : Option String
deriving Repr, DecidableEq

/-- A credit-history audit row. -/
structure CreditHistory where
  userId : Nat
  htype : String
  amount : Int
  description : String
  paymentId : Option Nat
  businessPlanId : Option Nat
deriving Repr, DecidableEq

/-- A business-plan row; only the fields relevant to the credit debit. -/
structure BusinessPlan where
  id : Nat
  title : String
  userId : Nat
deriving Repr, DecidableEq

/-- The relational store. -/
structure DB where
  users : List User
  coupons : List Coupon
  couponUsages : List CouponUsage
  payments : List Payment
  paymentRequests : List PaymentRequest
  creditHistory : List CreditHistory
  businessPlans : List BusinessPlan
deriving Repr, DecidableEq

/-- Reason a coupon fails validation. -/
inductive CouponFailure where
  | notFound
  | inactive
  | expired
  | exhaustedUses
deriving Repr, DecidableEq

/-- Result of `validateCoupon`. -/
inductive CouponResult where
  | invalid (reason : CouponFailure)
  | valid (coupon : Coupon)
deriving Repr, DecidableEq

/-- JavaScript `code.toUpperCase()` as used for the case-insensitive coupon
lookup (written out over the character list so that it evaluates). -/
def toUpperCase (s : String) : String :=
  String.mk (s.data.map Char.toUpper)

/-- Coupon validation (`validateCoupon` in coupons.routes.ts): looks the code up uppercased,
then checks `isActive`, then `expiresAt < new Date()`, then
`maxUses !== null && usedCount >= maxUses`, short-circuiting; pure, the
store is not modified. -/
def validateCoupon (db : DB) (code : String) (now : Int) : CouponResult :=
  match db.coupons.find? (fun c => c.code == toUpperCase code) with
  | none => .invalid .notFound
  | some coupon =>
    if coupon.isActive = false then .invalid .inactive
    else if coupon.expiresAt < now then .invalid .expired
    else
      match coupon.maxUses with
      | some m => if coupon.usedCount ≥ m then .invalid .exhaustedUses else .valid coupon
      | none => .valid coupon

/-- Static product catalog from the Toss payments router. -/
structure Product where
  name : String
  credits : Int
  price : Int
deriving Repr, DecidableEq

/-- The PRODUCTS table of payments.routes.ts (Toss variant). -/
def PRODUCTS (productId : String) : Option Product :=
  if productId = "business_plan_1" then some ⟨"AI 사업계획서 이용권 1회", 1, 50000⟩
  else if productId = "business_plan_3" then some ⟨"AI 사업계획서 이용권 3회", 3, 79900⟩
  else if productId = "business_plan_5" then some ⟨"AI 사업계획서 이용권 5회", 5, 119900⟩
  else if productId = "credit-1" then some ⟨"AI 사업계획서 이용권 1회", 1, 50000⟩
  else if productId = "credit-3" then some ⟨"AI 사업계획서 이용권 3회", 3, 79900⟩
  else if productId = "credit-5" then some ⟨"AI 사업계획서 이용권 5회", 5, 119900⟩
  else none

/-- Errors thrown by the payment routes, one constructor per distinct
throw site. -/
inductive PayError where
  | invalidProduct
  | invalidCoupon (reason : CouponFailure)
  | missingParams
  | notFound
  | alreadyProcessed
  | amountMismatch
  | serverError
  | gatewayDeclined
  | processingFailed
deriving Repr, DecidableEq

/-- Outcome of the external Toss gateway confirm call, passed in as a
parameter: a 2xx response (with an optional payment method), an explicit
non-ok rejection, or a transport-level exception from `fetch`. -/
inductive GatewayOutcome where
  | ok (method : Option String)
  | declined (message : String)
  | transportError
deriving Repr, DecidableEq

/-- Prisma `user.update` with `credits: { increment: delta }`. -/
def incrementUserCredits (users : List User) (uid : Nat) (delta : Int) : List User :=
  users.map fun u => if u.id == uid then { u with credits := u.credits + delta } else u

/-- Prisma `user.update` with `data: { credits }` (absolute set). -/
def setUserCredits (users : List User) (uid : Nat) (value : Int) : List User :=
  users.map fun u => if u.id == uid then { u with credits := value } else u

/-- Prisma `payment.update` on the payment with the given id. -/
def updatePaymentById (ps : List Payment) (pid : Nat) (f : Payment → Payment) : List Payment :=
  ps.map fun p => if p.id == pid then f p else p

/-- Prisma `paymentRequest.update` on the request with the given id. -/
def updateRequestById (rs : List PaymentRequest) (rid : Nat) (f : PaymentRequest → PaymentRequest) :
    List PaymentRequest :=
  rs.map fun r => if r.id == rid then f r else r

/-- Prisma `coupon.update` with `usedCount: { increment: 1 }`. -/
def incrementCouponUsed (cs : List Coupon) (cid : Nat) : List Coupon :=
  cs.map fun c => if c.id == cid then { c with usedCount := c.usedCount + 1 } else c

/-- The pending Payment row persisted by POST / of the Toss payments
router. -/
def mkPendingPayment (newId : Nat) (orderId : String) (userId : Nat) (productId : String)
    (product : Product) (finalAmount : Int) (couponId : Option Nat) : Payment :=
  { id := newId, orderId := orderId, userId := userId, productId := productId,
    productName := product.name, amount := finalAmount,
    creditsAdded := product.credits, status := "pending",
    paymentMethod := "card", paymentKey := none, couponId := couponId }

/-- POST / of the Toss payments router: resolve the product, optionally
validate the coupon and discount `finalAmount = max(0, price - discount)`,
then persist a pending Payment.  The fresh payment id, orderId and the
clock are inputs. -/
def createPayment (db : DB) (userId : Nat) (productId : String) (couponCode : Option String)
    (now : Int) (newId : Nat) (orderId : String) : DB × Except PayError Payment :=
  match PRODUCTS productId with
  | none => (db, .error .invalidProduct)
  | some product =>
    let amountAndCoupon : Except PayError (Int × Option Nat) :=
      match couponCode with
      | none => .ok (product.price, none)
      | some code =>
        match validateCoupon db code now with
        | .invalid reason => .error (.invalidCoupon reason)
        | .valid coupon => .ok (max 0 (product.price - coupon.discountAmount), some coupon.id)
    match amountAndCoupon with
    | .error e => (db, .error e)
    | .ok (finalAmount, couponId) =>
      let payment := mkPendingPayment newId orderId userId productId product finalAmount couponId
      ({ db with payments := db.payments ++ [payment] }, .ok payment)

/-- The field update applied to the payment row by a successful confirm. -/
def markCompleted (paymentKey : String) (method : Option String) (p : Payment) : Payment :=
  { p with status := "completed", paymentKey := some paymentKey,
           paymentMethod := method.getD "card" }

/-- The field update applied to the payment row on gateway decline. -/
def markFailed (p : Payment) : Payment :=
  { p with status := "failed" }

/-- The field update applied by the simple payments router's confirm
(sets only status and paymentKey). -/
def markCompletedSimple (newKey : String) (p : Payment) : Payment :=
  { p with status := "completed", paymentKey := some newKey }

/-- The committed transaction body of POST /confirm: mark the payment
completed, redeem the attached coupon if any (increment `usedCount`,
append a CouponUsage row), increment the user's credits by
`creditsAdded` and append the matching CreditHistory row. -/
def confirmApply (db : DB) (payment : Payment) (userId : Nat) (paymentKey : String)
    (method : Option String) : DB :=
  let db1 := { db with payments := updatePaymentById db.payments payment.id (markCompleted paymentKey method) }
  let db2 : DB :=
    match payment.couponId with
    | some cid =>
      { db1 with coupons := incrementCouponUsed db1.coupons cid,
                 couponUsages := db1.couponUsages ++ [⟨cid, userId, "payment"⟩] }
    | none => db1
  let db3 := { db2 with users := incrementUserCredits db2.users userId payment.creditsAdded }
  { db3 with creditHistory := db3.creditHistory ++
      [{ userId := userId, htype := "purchase", amount := payment.creditsAdded,
         description := "이용권 구매", paymentId := some payment.id, businessPlanId := none }] }

/-- POST /confirm of the Toss payments router: falsy-parameter check,
lookup by orderId+userId, `status === "completed"` guard, amount check,
then the gateway call; a transport error aborts before any write, an
explicit decline marks the payment failed, an ok response commits
`confirmApply`. -/
def confirmPayment (db : DB) (userId : Nat) (orderId : String) (paymentKey : String)
    (amount : Int) (gw : GatewayOutcome) : DB × Except PayError Payment :=
  if orderId = "" ∨ paymentKey = "" ∨ amount = 0 then (db, .error .missingParams)
  else
    match db.payments.find? (fun p => p.orderId == orderId && p.userId == userId) with
    | none => (db, .error .notFound)
    | some payment =>
      if payment.status == "completed" then (db, .error .alreadyProcessed)
      else if payment.amount ≠ amount then (db, .error .amountMismatch)
      else
        match gw with
        | .transportError => (db, .error .serverError)
        | .declined _ =>
          ({ db with payments := updatePaymentById db.payments payment.id markFailed },
           .error .gatewayDeclined)
        | .ok method =>
          (confirmApply db payment userId paymentKey method,
           .ok (markCompleted paymentKey method payment))

/-- POST /:paymentId/confirm of the simple payments router: lookup by
payment id, `completed` guard, then a `status !== "pending"` guard, then
commit (no coupon handling in this variant). -/
def confirmPaymentById (db : DB) (userId : Nat) (paymentId : Nat) (newKey : String) :
    DB × Except PayError Payment :=
  match db.payments.find? (fun p => p.id == paymentId && p.userId == userId) with
  | none => (db, .error .notFound)
  | some payment =>
    if payment.status == "completed" then (db, .error .alreadyProcessed)
    else if payment.status != "pending" then (db, .error .processingFailed)
    else
      let db1 := { db with payments := updatePaymentById db.payments payment.id (markCompletedSimple newKey) }
      let db2 := { db1 with users := incrementUserCredits db1.users userId payment.creditsAdded }
      let db3 := { db2 with creditHistory := db2.creditHistory ++
          [{ userId := userId, htype := "purchase", amount := payment.creditsAdded,
             description := "이용권 구매", paymentId := some payment.id, businessPlanId := none }] }
      (db3, .ok (markCompletedSimple newKey payment))

/-- Errors thrown by the payment-request routes. -/
inductive ReqError where
  | missingFields
  | belowMinimum
  | notFound
  | alreadyProcessed
deriving Repr, DecidableEq

/-- JavaScript `x || d` on an optional number: `undefined` and `0` are
falsy and fall through to the default. -/
def jsOr (v : Option Int) (d : Int) : Int :=
  match v with
  | none => d
  | some n => if n = 0 then d else n

/-- JavaScript `s || null` on an optional string: `undefined` and the
empty string become null. -/
def jsOrNull (s : Option String) : Option String :=
  match s with
  | none => none
  | some t => if t = "" then none else some t

/-- POST / of paymentRequests.routes.ts: require depositor name and a
truthy amount, enforce the 1000-won minimum, then persist a pending
request with `creditsToAdd: creditsToAdd || 1`. -/
def submitPaymentRequest (db : DB) (userId : Nat) (depositorName : String) (amount : Int)
    (creditsToAdd : Option Int) (newId : Nat) : DB × Except ReqError PaymentRequest :=
  if depositorName = "" ∨ amount = 0 then (db, .error .missingFields)
  else if amount < 1000 then (db, .error .belowMinimum)
  else
    let r : PaymentRequest :=
      { id := newId, userId := userId, depositorName := depositorName, amount := amount,
        creditsToAdd := jsOr creditsToAdd 1, status := "pending", adminNote := none }
    ({ db with paymentRequests := db.paymentRequests ++ [r] }, .ok r)

/-- The field update applied to a request row on approval. -/
def markApproved (finalCreditsToAdd : Int) (r : PaymentRequest) : PaymentRequest :=
  { r with status := "approved", creditsToAdd := finalCreditsToAdd }

/-- The field update applied to a request row on rejection. -/
def markRejected (note : Option String) (r : PaymentRequest) : PaymentRequest :=
  { r with status := "rejected", adminNote := note }

/-- POST /:id/approve of paymentRequests.routes.ts (identical in the
admin router): NotFound / `status !== "pending"` guards, then
`finalCreditsToAdd = creditsToAdd || paymentRequest.creditsToAdd` and an
atomic status flip + credit increment + history append. -/
def approvePaymentRequest (db : DB) (id : Nat) (creditsOverride : Option Int) :
    DB × Except ReqError PaymentRequest :=
  match db.paymentRequests.find? (fun r => r.id == id) with
  | none => (db, .error .notFound)
  | some pr =>
    if pr.status != "pending" then (db, .error .alreadyProcessed)
    else
      let finalCreditsToAdd := jsOr creditsOverride pr.creditsToAdd
      let db1 := { db with paymentRequests := updateRequestById db.paymentRequests id (markApproved finalCreditsToAdd) }
      let db2 := { db1 with users := incrementUserCredits db1.users pr.userId finalCreditsToAdd }
      let db3 := { db2 with creditHistory := db2.creditHistory ++
          [{ userId := pr.userId, htype := "purchase", amount := finalCreditsToAdd,
             description := "무통장 입금 승인", paymentId := none, businessPlanId := none }] }
      (db3, .ok (markApproved finalCreditsToAdd pr))

/-- POST /:id/reject of paymentRequests.routes.ts (identical in the
admin router): same guards as approve, then a status flip to rejected
with `adminNote: adminNote || null`; no credit or history write. -/
def rejectPaymentRequest (db : DB) (id : Nat) (adminNote : Option String) :
    DB × Except ReqError PaymentRequest :=
  match db.paymentRequests.find? (fun r => r.id == id) with
  | none => (db, .error .notFound)
  | some pr =>
    if pr.status != "pending" then (db, .error .alreadyProcessed)
    else
      let note := jsOrNull adminNote
      ({ db with paymentRequests := updateRequestById db.paymentRequests id (markRejected note) },
       .ok (markRejected note pr))

/-- Error thrown by the credit-debiting business-plan create. -/
inductive PlanError where
  | insufficientCredits
deriving Repr, DecidableEq

/-- The `useCredit` branch of POST / in businessPlans.routes.ts: reject
with the insufficient-credits message when the user is missing or has
`credits < 1`, otherwise atomically decrement one credit, create the
plan and append a `use` history row of amount -1. -/
def createBusinessPlanWithCredit (db : DB) (userId : Nat) (title : String) (newId : Nat) :
    DB × Except PlanError BusinessPlan :=
  match db.users.find? (fun u => u.id == userId) with
  | none => (db, .error .insufficientCredits)
  | some user =>
    if user.credits < 1 then (db, .error .insufficientCredits)
    else
      let plan : BusinessPlan := { id := newId, title := title, userId := userId }
      let db1 := { db with users := incrementUserCredits db.users userId (-1) }
      let db2 := { db1 with businessPlans := db1.businessPlans ++ [plan] }
      let db3 := { db2 with creditHistory := db2.creditHistory ++
          [{ userId := userId, htype := "use", amount := -1,
             description := "사업계획서 생성: " ++ title, paymentId := none,
             businessPlanId := some newId }] }
      (db3, .ok plan)

/-- Errors thrown by the admin credit override. -/
inductive AdminError where
  | invalidAmount
  | notFound
deriving Repr, DecidableEq

/-- PATCH /users/:id/credits of the admin router: reject negative
targets, look the user up, compute `creditDiff = credits - previous`,
set the absolute balance and append one history row (typed by the sign
of the diff) unless the diff is zero. -/
def adminSetCredits (db : DB) (id : Nat) (credits : Int) (reason : Option String) :
    DB × Except AdminError Int :=
  if credits < 0 then (db, .error .invalidAmount)
  else
    match db.users.find? (fun u => u.id == id) with
    | none => (db, .error .notFound)
    | some user =>
      let creditDiff := credits - user.credits
      let db1 := { db with users := setUserCredits db.users id credits }
      let db2 : DB :=
        if creditDiff ≠ 0 then
          { db1 with creditHistory := db1.creditHistory ++
              [{ userId := id, htype := if creditDiff > 0 then "purchase" else "use",
                 amount := creditDiff,
                 description := (jsOrNull reason).getD "관리자에 의한 이용권 변경",
                 paymentId := none, businessPlanId := none }] }
        else db1
      (db2, .ok credits)

/-- One ledger-touching operation, with all external nondeterminism
(ids, clock, gateway outcome) frozen into the constructor. -/
inductive LedgerOp where
  | confirm (userId : Nat) (orderId paymentKey : String) (amount : Int) (gw : GatewayOutcome)
  | confirmById (userId paymentId : Nat) (newKey : String)
  | createPay (userId : Nat) (productId : String) (couponCode : Option String)
      (now : Int) (newId : Nat) (orderId : String)
  | submit (userId : Nat) (depositorName : String) (amount : Int)
      (creditsToAdd : Option Int) (newId : Nat)
  | approve (id : Nat) (creditsOverride : Option Int)
  | reject (id : Nat) (adminNote : Option String)
  | planDebit (userId : Nat) (title : String) (newId : Nat)
  | setCredits (id : Nat) (credits : Int) (reason : Option String)
deriving Repr, DecidableEq

/-- The post-state of one operation (errors included: an error leaves
whatever the handler wrote, which for every handler but the
gateway-declined branch of confirm is the unchanged store). -/
def applyLedgerOp (db : DB) : LedgerOp → DB
  | .confirm userId orderId paymentKey amount gw =>
      (confirmPayment db userId orderId paymentKey amount gw).1
  | .confirmById userId paymentId newKey => (confirmPaymentById db userId paymentId newKey).1
  | .createPay userId productId couponCode now newId orderId =>
      (createPayment db userId productId couponCode now newId orderId).1
  | .submit userId depositorName amount creditsToAdd newId =>
      (submitPaymentRequest db userId depositorName amount creditsToAdd newId).1
  | .approve id creditsOverride => (approvePaymentRequest db id creditsOverride).1
  | .reject id adminNote => (rejectPaymentRequest db id adminNote).1
  | .planDebit userId title newId => (createBusinessPlanWithCredit db userId title newId).1
  | .setCredits id credits reason => (adminSetCredits db id credits reason).1

/-- Total credit-history amount recorded for one account. -/
def historySum (hs : List CreditHistory) (uid : Nat) : Int :=
  ((hs.filter (fun e => e.userId == uid)).map CreditHistory.amount).sum

/-- The core ledger invariant: every stored balance reconciles with the
account's history stream. -/
def Balanced (us : List User) (hs : List CreditHistory) : Prop :=
  ∀ u ∈ us, u.credits = historySum hs u.id

/-- The invariant `Balanced` applied to a whole store. -/
def BalancedLedger (db : DB) : Prop :=
  Balanced db.users db.creditHistory

/-- The balance of one account, if the account exists. -/
def getUserCredits (db : DB) (uid : Nat) : Option Int :=
  (db.users.find? (fun u => u.id == uid)).map User.credits

/-- The stored status of the payment matching an orderId for an account. -/
def getPaymentStatus (db : DB) (uid : Nat) (orderId : String) : Option String :=
  (db.payments.find? (fun p => p.orderId == orderId && p.userId == uid)).map Payment.status

/-- The stored status of a payment request. -/
def getRequestStatus (db : DB) (id : Nat) : Option String :=
  (db.paymentRequests.find? (fun r => r.id == id)).map PaymentRequest.status

/-- A coupon's used count. -/
def getCouponUsedCount (db : DB) (cid : Nat) : Option Int :=
  (db.coupons.find? (fun c => c.id == cid)).map Coupon.usedCount

instance (us : List User) (hs : List CreditHistory) : Decidable (Balanced us hs) :=
  inferInstanceAs (Decidable (∀ u ∈ us, u.credits = historySum hs u.id))

instance (db : DB) : Decidable (BalancedLedger db) :=
  inferInstanceAs (Decidable (Balanced db.users db.creditHistory))

/-! ### Ledger-invariant helper lemmas -/

theorem historySum_append_single (hs : List CreditHistory) (e : CreditHistory) (uid : Nat) :
    historySum (hs ++ [e]) uid
      = historySum hs uid + (if e.userId = uid then e.amount else 0) := by
  simp only [historySum, List.filter_append, List.map_append, List.sum_append]
  by_cases h : e.userId = uid
  · simp [h]
  · simp [h]

theorem balanced_incr_append {us : List User} {hs : List CreditHistory} {uid : Nat} {a : Int}
    {e : CreditHistory} (he : e.userId = uid) (ha : e.amount = a)
    (h : Balanced us hs) : Balanced (incrementUserCredits us uid a) (hs ++ [e]) := by
  intro u' hu'
  rcases List.mem_map.1 hu' with ⟨u, hu, rfl⟩
  have hb := h u hu
  by_cases hid : u.id = uid
  · simp [incrementUserCredits, hid, historySum_append_single, he, hb, ha]
  · have hne : ¬ (e.userId = u.id) := by
      rw [he]; exact fun hcon => hid hcon.symm
    simp [incrementUserCredits, hid, historySum_append_single, hne, hb]

theorem balanced_set_append {us : List User} {hs : List CreditHistory} {id : Nat} {v : Int}
    {u0 : User} (hfind : us.find? (fun u => u.id == id) = some u0)
    {e : CreditHistory} (he : e.userId = id) (ha : e.amount = v - u0.credits)
    (h : Balanced us hs) : Balanced (setUserCredits us id v) (hs ++ [e]) := by
  have hid0 : u0.id = id := by simpa using List.find?_some hfind
  have hmem0 : u0 ∈ us := List.mem_of_find?_eq_some hfind
  have hb0 : u0.credits = historySum hs id := by simpa [hid0] using h u0 hmem0
  intro u' hu'
  rcases List.mem_map.1 hu' with ⟨u, hu, rfl⟩
  have hb := h u hu
  by_cases hid : u.id = id
  · simp only [setUserCredits, hid, beq_self_eq_true, if_true]
    rw [historySum_append_single]
    simp [he, ha, ← hb0, hid]
  · have hne : ¬ (e.userId = u.id) := by
      rw [he]; exact fun hcon => hid hcon.symm
    simp [setUserCredits, hid, historySum_append_single, hne, hb]

theorem balanced_set_same {us : List User} {hs : List CreditHistory} {id : Nat} {v : Int}
    {u0 : User} (hfind : us.find? (fun u => u.id == id) = some u0)
    (hv : v = u0.credits) (h : Balanced us hs) : Balanced (setUserCredits us id v) hs := by
  have hid0 : u0.id = id := by simpa using List.find?_some hfind
  have hmem0 : u0 ∈ us := List.mem_of_find?_eq_some hfind
  have hb0 : u0.credits = historySum hs id := by simpa [hid0] using h u0 hmem0
  intro u' hu'
  rcases List.mem_map.1 hu' with ⟨u, hu, rfl⟩
  have hb := h u hu
  by_cases hid : u.id = id
  · simp [setUserCredits, hid, hv, hb0]
  · simp [setUserCredits, hid, hb]

theorem balancedLedger_confirmApply {db : DB} (payment : Payment) (userId : Nat)
    (paymentKey : String) (method : Option String) (h : BalancedLedger db) :
    BalancedLedger (confirmApply db payment userId paymentKey method) := by
  unfold BalancedLedger confirmApply
  cases payment.couponId <;>
    exact balanced_incr_append rfl rfl h

theorem historySum_eq_zero {hs : List CreditHistory} {uid : Nat}
    (h : ∀ e ∈ hs, e.userId ≠ uid) : historySum hs uid = 0 := by
  unfold historySum
  have : hs.filter (fun e => e.userId == uid) = [] := by
    apply List.filter_eq_nil_iff.2
    intro e he
    simpa using h e he
  simp [this]

/-- Account creation on first login (auth routes): a fresh user row with
`credits: 0` and no history. -/
def createAccount (db : DB) (uid : Nat) : DB :=
  { db with users := db.users ++ [{ id := uid, credits := 0 }] }

theorem confirm_preserves_balance (db : DB) (userId : Nat) (orderId paymentKey : String)
    (amount : Int) (gw : GatewayOutcome) (h : BalancedLedger db) :
    BalancedLedger (confirmPayment db userId orderId paymentKey amount gw).1 := by
  unfold confirmPayment
  split
  · exact h
  · split
    · exact h
    · split
      · exact h
      · split
        · exact h
        · split
          · exact h
          · exact h
          · exact balancedLedger_confirmApply _ _ _ _ h

theorem confirmById_preserves_balance (db : DB) (userId paymentId : Nat) (newKey : String)
    (h : BalancedLedger db) :
    BalancedLedger (confirmPaymentById db userId paymentId newKey).1 := by
  unfold confirmPaymentById
  split
  · exact h
  · split
    · exact h
    · split
      · exact h
      · exact balanced_incr_append rfl rfl h

theorem createPayment_preserves_balance (db : DB) (userId : Nat) (productId : String)
    (couponCode : Option String) (now : Int) (newId : Nat) (orderId : String)
    (h : BalancedLedger db) :
    BalancedLedger (createPayment db userId productId couponCode now newId orderId).1 := by
  unfold createPayment
  split
  · exact h
  · split
    · exact h
    · split
      · exact h
      · exact h

theorem submit_preserves_balance (db : DB) (userId : Nat) (depositorName : String)
    (amount : Int) (creditsToAdd : Option Int) (newId : Nat) (h : BalancedLedger db) :
    BalancedLedger (submitPaymentRequest db userId depositorName amount creditsToAdd newId).1 := by
  unfold submitPaymentRequest
  split
  · exact h
  · split
    · exact h
    · exact h

theorem approve_preserves_balance (db : DB) (id : Nat) (creditsOverride : Option Int)
    (h : BalancedLedger db) :
    BalancedLedger (approvePaymentRequest db id creditsOverride).1 := by
  unfold approvePaymentRequest
  split
  · exact h
  · split
    · exact h
    · exact balanced_incr_append rfl rfl h

theorem reject_preserves_balance (db : DB) (id : Nat) (adminNote : Option String)
    (h : BalancedLedger db) :
    BalancedLedger (rejectPaymentRequest db id adminNote).1 := by
  unfold rejectPaymentRequest
  split
  · exact h
  · split
    · exact h
    · exact h

theorem planDebit_preserves_balance (db : DB) (userId : Nat) (title : String) (newId : Nat)
    (h : BalancedLedger db) :
    BalancedLedger (createBusinessPlanWithCredit db userId title newId).1 := by
  unfold createBusinessPlanWithCredit
  split
  · exact h
  · split
    · exact h
    · exact balanced_incr_append rfl rfl h

theorem setCredits_preserves_balance (db : DB) (id : Nat) (credits : Int)
    (reason : Option String) (h : BalancedLedger db) :
    BalancedLedger (adminSetCredits db id credits reason).1 := by
  unfold adminSetCredits
  split
  · exact h
  · split
    · exact h
    · next user hfind =>
      dsimp only
      split
      · exact balanced_set_append hfind rfl rfl h
      · next hdiff => exact balanced_set_same hfind (by omega) h

theorem createAccount_preserves_balance (db : DB) (uid : Nat)
    (hfresh : ∀ e ∈ db.creditHistory, e.userId ≠ uid) (h : BalancedLedger db) :
    BalancedLedger (createAccount db uid) := by
  unfold BalancedLedger Balanced createAccount at *
  intro u hu
  rcases List.mem_append.1 hu with hu | hu
  · exact h u hu
  · rcases List.mem_singleton.1 hu with rfl
    exact (historySum_eq_zero hfresh).symm

/-! ### find? over row updates -/

theorem find?_map_of_pred {α : Type} (l : List α) (g : α → α) (pred : α → Bool)
    (hg : ∀ x, pred (g x) = pred x) :
    (l.map g).find? pred = (l.find? pred).map g := by
  rw [List.find?_map]
  have hpg : pred ∘ g = pred := funext hg
  rw [hpg]

theorem find?_updatePaymentById (ps : List Payment) (pid : Nat) (f : Payment → Payment)
    (pred : Payment → Bool) (hf : ∀ p, pred (f p) = pred p) :
    (updatePaymentById ps pid f).find? pred
      = (ps.find? pred).map (fun p => if p.id == pid then f p else p) := by
  unfold updatePaymentById
  apply find?_map_of_pred
  intro p
  by_cases hp : p.id == pid
  · simp [hp, hf]
  · simp [hp]

theorem find?_updateRequestById (rs : List PaymentRequest) (rid : Nat)
    (f : PaymentRequest → PaymentRequest) (pred : PaymentRequest → Bool)
    (hf : ∀ r, pred (f r) = pred r) :
    (updateRequestById rs rid f).find? pred
      = (rs.find? pred).map (fun r => if r.id == rid then f r else r) := by
  unfold updateRequestById
  apply find?_map_of_pred
  intro r
  by_cases hr : r.id == rid
  · simp [hr, hf]
  · simp [hr]

theorem find?_incrementUserCredits (us : List User) (uid : Nat) (delta : Int)
    (pred : User → Bool) (hf : ∀ u, pred { u with credits := u.credits + delta } = pred u) :
    (incrementUserCredits us uid delta).find? pred
      = (us.find? pred).map (fun u => if u.id == uid then { u with credits := u.credits + delta } else u) := by
  unfold incrementUserCredits
  apply find?_map_of_pred
  intro u
  by_cases hu : u.id == uid
  · simp [hu, hf]
  · simp [hu]

/-! ### Shapes of the components of a successful confirm -/

theorem confirmApply_payments (db : DB) (payment : Payment) (userId : Nat)
    (paymentKey : String) (method : Option String) :
    (confirmApply db payment userId paymentKey method).payments
      = updatePaymentById db.payments payment.id (markCompleted paymentKey method) := by
  unfold confirmApply
  cases payment.couponId <;> rfl

theorem confirmApply_users (db : DB) (payment : Payment) (userId : Nat)
    (paymentKey : String) (method : Option String) :
    (confirmApply db payment userId paymentKey method).users
      = incrementUserCredits db.users userId payment.creditsAdded := by
  unfold confirmApply
  cases payment.couponId <;> rfl

theorem confirmApply_history (db : DB) (payment : Payment) (userId : Nat)
    (paymentKey : String) (method : Option String) :
    (confirmApply db payment userId paymentKey method).creditHistory
      = db.creditHistory ++
        [{ userId := userId, htype := "purchase", amount := payment.creditsAdded,
           description := "이용권 구매", paymentId := some payment.id, businessPlanId := none }] := by
  unfold confirmApply
  cases payment.couponId <;> rfl

theorem confirm_ok_shape {db : DB} {userId : Nat} {orderId paymentKey : String} {amount : Int}
    {gw : GatewayOutcome} {db' : DB} {out : Payment}
    (h : confirmPayment db userId orderId paymentKey amount gw = (db', Except.ok out)) :
    ∃ payment method,
      ¬ (orderId = "" ∨ paymentKey = "" ∨ amount = 0) ∧
      db.payments.find? (fun p => p.orderId == orderId && p.userId == userId) = some payment ∧
      gw = GatewayOutcome.ok method ∧
      (payment.status == "completed") = false ∧
      payment.amount = amount ∧
      db' = confirmApply db payment userId paymentKey method ∧
      out = markCompleted paymentKey method payment := by
  unfold confirmPayment at h
  split at h
  · simp at h
  · next hne =>
    split at h
    · simp at h
    · next payment hfind =>
      split at h
      · simp at h
      · next hst =>
        split at h
        · simp at h
        · next hamt =>
          split at h
          · simp at h
          · simp at h
          · next method =>
            rw [Prod.mk.injEq] at h
            obtain ⟨h1, h2⟩ := h
            refine ⟨payment, method, hne, hfind, rfl, ?_, ?_, h1.symm, ?_⟩
            · simpa using hst
            · omega
            · injection h2 with h2
              exact h2.symm

/-! ### Claim theorems -/

/-- C1: for every account and after every ledger-touching operation
(payment confirmation, payment-request approval, the business-plan
credit debit, the admin credit override — and also the operations that
do not touch the ledger), the account's credits balance equals the sum
of the amounts of its CreditHistory rows, given that accounts are
created with credits 0 and an empty history. -/
theorem c1_credits_equal_history_sum :
    (∀ (db : DB) (uid : Nat), (∀ e ∈ db.creditHistory, e.userId ≠ uid) →
        BalancedLedger db → BalancedLedger (createAccount db uid)) ∧
    (∀ (db : DB) (op : LedgerOp), BalancedLedger db → BalancedLedger (applyLedgerOp db op)) := by
  constructor
  · exact createAccount_preserves_balance
  · intro db op h
    cases op with
    | confirm userId orderId paymentKey amount gw =>
      exact confirm_preserves_balance db userId orderId paymentKey amount gw h
    | confirmById userId paymentId newKey =>
      exact confirmById_preserves_balance db userId paymentId newKey h
    | createPay userId productId couponCode now newId orderId =>
      exact createPayment_preserves_balance db userId productId couponCode now newId orderId h
    | submit userId depositorName amount creditsToAdd newId =>
      exact submit_preserves_balance db userId depositorName amount creditsToAdd newId h
    | approve id creditsOverride => exact approve_preserves_balance db id creditsOverride h
    | reject id adminNote => exact reject_preserves_balance db id adminNote h
    | planDebit userId title newId => exact planDebit_preserves_balance db userId title newId h
    | setCredits id credits reason => exact setCredits_preserves_balance db id credits reason h

/-- A store with one account whose balance 3 reconciles with its single
history row. -/
def c1db : DB :=
  ⟨[⟨1, 3⟩], [], [], [], [], [⟨1, "purchase", 3, "이용권 구매", none, none⟩], []⟩

/-- Witness for C1 at a concrete store and operation. -/
theorem c1_credits_equal_history_sum_witness :
    BalancedLedger (createAccount c1db 2) ∧
    BalancedLedger (applyLedgerOp c1db (LedgerOp.planDebit 1 "plan" 5)) :=
  ⟨c1_credits_equal_history_sum.1 c1db 2 (by decide) (by decide),
   c1_credits_equal_history_sum.2 c1db (LedgerOp.planDebit 1 "plan" 5) (by decide)⟩

/-- C2: a successful Confirm marks the payment completed, applies
exactly one positive ledger delta of `creditsAdded` (one balance
increment and one appended history row), and a second Confirm for the
same orderId fails with AlreadyProcessed without mutating anything. -/
theorem c2_confirm_grants_once (db : DB) (userId : Nat) (orderId paymentKey : String)
    (amount : Int) (gw : GatewayOutcome) (db' : DB) (out payment : Payment)
    (hfind : db.payments.find? (fun p => p.orderId == orderId && p.userId == userId) = some payment)
    (hrun : confirmPayment db userId orderId paymentKey amount gw = (db', Except.ok out)) :
    getPaymentStatus db' userId orderId = some "completed" ∧
    getUserCredits db' userId = (getUserCredits db userId).map (· + payment.creditsAdded) ∧
    db'.creditHistory = db.creditHistory ++
      [{ userId := userId, htype := "purchase", amount := payment.creditsAdded,
         description := "이용권 구매", paymentId := some payment.id, businessPlanId := none }] ∧
    ∀ (paymentKey2 : String) (amount2 : Int) (gw2 : GatewayOutcome),
      paymentKey2 ≠ "" → amount2 ≠ 0 →
      confirmPayment db' userId orderId paymentKey2 amount2 gw2
        = (db', Except.error PayError.alreadyProcessed) := by
  obtain ⟨p0, method, hne, hfind0, rfl, hst, hamt, rfl, rfl⟩ := confirm_ok_shape hrun
  rw [hfind] at hfind0
  injection hfind0 with hp0
  subst hp0
  have hpredP : ∀ p : Payment,
      ((markCompleted paymentKey method p).orderId == orderId &&
        (markCompleted paymentKey method p).userId == userId)
        = (p.orderId == orderId && p.userId == userId) := fun _ => rfl
  refine ⟨?_, ?_, confirmApply_history db payment userId paymentKey method, ?_⟩
  · unfold getPaymentStatus
    rw [confirmApply_payments, find?_updatePaymentById _ _ _ _ hpredP, hfind]
    simp [markCompleted]
  · unfold getUserCredits
    rw [confirmApply_users,
      find?_incrementUserCredits db.users userId payment.creditsAdded
        (fun u => u.id == userId) (fun _ => rfl)]
    rcases hu : db.users.find? (fun u => u.id == userId) with _ | u
    · simp [hu]
    · have hid : u.id = userId := by simpa using List.find?_some hu
      simp [hu, hid]
  · intro paymentKey2 amount2 gw2 hpk2 ha2
    have hcond : ¬ (orderId = "" ∨ paymentKey2 = "" ∨ amount2 = 0) := by
      rintro (hx | hx | hx)
      · exact hne (Or.inl hx)
      · exact hpk2 hx
      · exact ha2 hx
    unfold confirmPayment
    rw [if_neg hcond, confirmApply_payments, find?_updatePaymentById _ _ _ _ hpredP, hfind]
    simp [markCompleted]

/-- A store with one account and one matching pending payment. -/
def c2db : DB :=
  ⟨[⟨1, 0⟩], [], [],
   [⟨10, "ORD1", 1, "business_plan_1", "AI 사업계획서 이용권 1회", 50000, 1, "pending", "card", none, none⟩],
   [], [], []⟩

/-- The matching pending payment of `c2db`. -/
def c2payment : Payment :=
  ⟨10, "ORD1", 1, "business_plan_1", "AI 사업계획서 이용권 1회", 50000, 1, "pending", "card", none, none⟩

/-- Witness for C2: the second confirm of the same orderId fails with
AlreadyProcessed and leaves the store unchanged. -/
theorem c2_confirm_grants_once_witness :
    confirmPayment (confirmApply c2db c2payment 1 "pk" none) 1 "ORD1" "pk" 50000
        (GatewayOutcome.ok none)
      = (confirmApply c2db c2payment 1 "pk" none, Except.error PayError.alreadyProcessed) :=
  (c2_confirm_grants_once c2db 1 "ORD1" "pk" 50000 (GatewayOutcome.ok none)
      (confirmApply c2db c2payment 1 "pk" none) (markCompleted "pk" none c2payment) c2payment
      rfl rfl).2.2.2 "pk" 50000 (GatewayOutcome.ok none) (by decide) (by decide)

/-- A store with one account and one payment already in status failed. -/
def c3db : DB :=
  ⟨[⟨1, 0⟩], [], [],
   [⟨10, "ORD1", 1, "business_plan_1", "AI 사업계획서 이용권 1회", 50000, 1, "failed", "card", none, none⟩],
   [], [], []⟩

/-- The failed payment stored in `c3db`. -/
def c3payment : Payment :=
  ⟨10, "ORD1", 1, "business_plan_1", "AI 사업계획서 이용권 1회", 50000, 1, "failed", "card", none, none⟩

/-- C3 counterexample: a payment whose stored status is "failed" (not
pending) is not rejected with AlreadyProcessed — the status guard only
checks for "completed", so the confirm proceeds and even succeeds. -/
theorem c3_failed_payment_not_rejected :
    c3payment.status = "failed" ∧
    confirmPayment c3db 1 "ORD1" "pk" 50000 (GatewayOutcome.ok none)
      = (confirmApply c3db c3payment 1 "pk" none,
         Except.ok (markCompleted "pk" none c3payment)) :=
  ⟨rfl, rfl⟩

/-- C3 (amended): Confirm fails with AlreadyProcessed exactly when the
stored status is "completed" (a failed or cancelled payment passes the
status guard); it fails with NotFound when no payment matches the
orderId and account, and with AmountMismatch when the claimed amount
differs from the stored amount; in these three failure cases no state
is mutated. -/
theorem c3_confirm_guards (db : DB) (userId : Nat) (orderId paymentKey : String) (amount : Int)
    (hcond : ¬ (orderId = "" ∨ paymentKey = "" ∨ amount = 0)) :
    (∀ gw, db.payments.find? (fun p => p.orderId == orderId && p.userId == userId) = none →
      confirmPayment db userId orderId paymentKey amount gw
        = (db, Except.error PayError.notFound)) ∧
    (∀ gw payment,
      db.payments.find? (fun p => p.orderId == orderId && p.userId == userId) = some payment →
      payment.status = "completed" →
      confirmPayment db userId orderId paymentKey amount gw
        = (db, Except.error PayError.alreadyProcessed)) ∧
    (∀ gw payment,
      db.payments.find? (fun p => p.orderId == orderId && p.userId == userId) = some payment →
      payment.status ≠ "completed" → payment.amount ≠ amount →
      confirmPayment db userId orderId paymentKey amount gw
        = (db, Except.error PayError.amountMismatch)) := by
  refine ⟨?_, ?_, ?_⟩
  · intro gw hfind
    unfold confirmPayment
    rw [if_neg hcond, hfind]
  · intro gw payment hfind hst
    unfold confirmPayment
    rw [if_neg hcond, hfind]
    simp [hst]
  · intro gw payment hfind hst hamt
    unfold confirmPayment
    rw [if_neg hcond, hfind]
    simp [hst, hamt]

/-- A store with one account and one completed payment. -/
def c3dbDone : DB :=
  ⟨[⟨1, 1⟩], [], [],
   [⟨10, "ORD1", 1, "business_plan_1", "AI 사업계획서 이용권 1회", 50000, 1, "completed", "card", none, none⟩],
   [], [⟨1, "purchase", 1, "이용권 구매", some 10, none⟩], []⟩

/-- The completed payment stored in `c3dbDone`. -/
def c3paymentDone : Payment :=
  ⟨10, "ORD1", 1, "business_plan_1", "AI 사업계획서 이용권 1회", 50000, 1, "completed", "card", none, none⟩

/-- Witness for the amended C3: a completed payment is rejected with
AlreadyProcessed and the store is untouched. -/
theorem c3_confirm_guards_witness :
    confirmPayment c3dbDone 1 "ORD1" "pk" 50000 (GatewayOutcome.ok none)
      = (c3dbDone, Except.error PayError.alreadyProcessed) :=
  (c3_confirm_guards c3dbDone 1 "ORD1" "pk" 50000 (by decide)).2.1
    (GatewayOutcome.ok none) c3paymentDone rfl rfl

/-- A store with a maxUses=1 coupon, one account and no payments yet. -/
def c4db : DB :=
  ⟨[⟨1, 0⟩], [⟨1, "SALE", 10000, 1000, some 1, 0, true⟩], [], [], [], [], []⟩

/-- The operation sequence that over-redeems the coupon: two payment
creations with the same coupon (both validations pass while usedCount is
still 0), then two confirms. -/
def c4ops : List LedgerOp :=
  [LedgerOp.createPay 1 "business_plan_1" (some "SALE") 0 1 "ORD1",
   LedgerOp.createPay 1 "business_plan_1" (some "SALE") 0 2 "ORD2",
   LedgerOp.confirm 1 "ORD1" "pk1" 40000 (GatewayOutcome.ok none),
   LedgerOp.confirm 1 "ORD2" "pk2" 40000 (GatewayOutcome.ok none)]

/-- C4 (code bug): payment confirmation increments `usedCount` without
re-checking `maxUses`, so two payments created against the same
maxUses=1 coupon and then both confirmed drive `usedCount` to 2, above
the cap of 1. -/
theorem c4_usedCount_exceeds_maxUses :
    getCouponUsedCount (c4ops.foldl applyLedgerOp c4db) 1 = some 2 ∧
    (c4db.coupons.find? (fun c => c.id == 1)).map Coupon.maxUses = some (some 1) := by
  decide

/-- A store with one account holding zero credits. -/
def c5db : DB := ⟨[⟨1, 0⟩], [], [], [], [], [], []⟩

/-- C5: the 1-credit debit for business-plan creation fails with
InsufficientCredits whenever the account is missing or its balance is
below 1, and the whole store — balance and history included — is left
unchanged. -/
theorem c5_insufficient_credits (db : DB) (userId : Nat) (title : String) (newId : Nat) :
    (getUserCredits db userId = none →
      createBusinessPlanWithCredit db userId title newId
        = (db, Except.error PlanError.insufficientCredits)) ∧
    (∀ b, getUserCredits db userId = some b → b < 1 →
      createBusinessPlanWithCredit db userId title newId
        = (db, Except.error PlanError.insufficientCredits)) := by
  constructor
  · intro hnone
    unfold getUserCredits at hnone
    unfold createBusinessPlanWithCredit
    rcases hu : db.users.find? (fun u => u.id == userId) with _ | u
    · rw [hu]
    · rw [hu] at hnone
      simp at hnone
  · intro b hsome hb
    unfold getUserCredits at hsome
    unfold createBusinessPlanWithCredit
    rcases hu : db.users.find? (fun u => u.id == userId) with _ | u
    · rw [hu]
    · rw [hu] at hsome
      simp at hsome
      rw [hu]
      have hlt : u.credits < 1 := by omega
      simp [hlt]

/-- Witness for C5 at a concrete zero-balance account. -/
theorem c5_insufficient_credits_witness :
    createBusinessPlanWithCredit c5db 1 "plan" 7
      = (c5db, Except.error PlanError.insufficientCredits) :=
  (c5_insufficient_credits c5db 1 "plan" 7).2 0 rfl (by decide)

/-- C6: payment creation stores one pending Payment whose amount is the
list price without a coupon and `max(0, price - discount)` with a valid
coupon, touching nothing else in the store (the post-state differs from
the pre-state only by the appended payment row); it fails with
InvalidProduct for an unknown product id and with InvalidCoupon when
the supplied code fails validation, leaving the store unchanged. -/
theorem c6_create_payment (db : DB) (userId : Nat) (productId : String) (now : Int)
    (newId : Nat) (orderId : String) :
    (∀ couponCode, PRODUCTS productId = none →
      createPayment db userId productId couponCode now newId orderId
        = (db, Except.error PayError.invalidProduct)) ∧
    (∀ product, PRODUCTS productId = some product →
      createPayment db userId productId none now newId orderId
        = ({ db with payments := db.payments ++
              [mkPendingPayment newId orderId userId productId product product.price none] },
           Except.ok (mkPendingPayment newId orderId userId productId product product.price none))) ∧
    (∀ product code reason, PRODUCTS productId = some product →
      validateCoupon db code now = CouponResult.invalid reason →
      createPayment db userId productId (some code) now newId orderId
        = (db, Except.error (PayError.invalidCoupon reason))) ∧
    (∀ product code coupon, PRODUCTS productId = some product →
      validateCoupon db code now = CouponResult.valid coupon →
      createPayment db userId productId (some code) now newId orderId
        = ({ db with payments := db.payments ++
              [mkPendingPayment newId orderId userId productId product
                 (max 0 (product.price - coupon.discountAmount)) (some coupon.id)] },
           Except.ok (mkPendingPayment newId orderId userId productId product
                 (max 0 (product.price - coupon.discountAmount)) (some coupon.id)))) := by
  refine ⟨?_, ?_, ?_, ?_⟩
  · intro couponCode h
    unfold createPayment
    rw [h]
  · intro product h
    unfold createPayment
    rw [h]
  · intro product code reason h hv
    unfold createPayment
    rw [h]
    dsimp only
    rw [hv]
  · intro product code coupon h hv
    unfold createPayment
    rw [h]
    dsimp only
    rw [hv]

/-- A store holding one active, unexpired coupon with a 10000 discount. -/
def c6db : DB := ⟨[⟨1, 0⟩], [⟨3, "SALE", 10000, 1000, none, 0, true⟩], [], [], [], [], []⟩

/-- The coupon stored in `c6db`. -/
def c6coupon : Coupon := ⟨3, "SALE", 10000, 1000, none, 0, true⟩

/-- The 50000-won one-credit product. -/
def c6product : Product := ⟨"AI 사업계획서 이용권 1회", 1, 50000⟩

/-- Witness for C6: a 10000-discount coupon on the 50000 product stores
a pending payment of 40000 and nothing else changes. -/
theorem c6_create_payment_witness :
    createPayment c6db 1 "business_plan_1" (some "SALE") 0 5 "ORD5"
      = ({ c6db with payments := c6db.payments ++
            [mkPendingPayment 5 "ORD5" 1 "business_plan_1" c6product 40000 (some 3)] },
         Except.ok (mkPendingPayment 5 "ORD5" 1 "business_plan_1" c6product 40000 (some 3))) :=
  (c6_create_payment c6db 1 "business_plan_1" 0 5 "ORD5").2.2.2 c6product "SALE" c6coupon rfl rfl

/-- A store holding one active coupon that expires at instant 100. -/
def c7db : DB := ⟨[], [⟨1, "SAVE", 5000, 100, none, 0, true⟩], [], [], [], [], []⟩

/-- The coupon stored in `c7db`. -/
def c7coupon : Coupon := ⟨1, "SAVE", 5000, 100, none, 0, true⟩

/-- C7 counterexample: validated at exactly its expiry instant — so with
`expiresAt` not strictly in the future — the coupon is still accepted,
because the code only fails Expired when `expiresAt < now`. -/
theorem c7_expiry_boundary_counterexample :
    validateCoupon c7db "SAVE" 100 = CouponResult.valid c7coupon ∧
    ¬ (c7coupon.expiresAt > 100) := by decide

/-- C7 (amended): coupon validation performs the four checks in order,
short-circuiting on the first failure — existence of the uppercased code
else NotFound, `isActive` else Inactive, `expiresAt` not strictly in the
past (`now ≤ expiresAt`; a coupon expiring at the validation instant
still passes) else Expired, `maxUses` null or `usedCount < maxUses` else
ExhaustedUses — and returns the coupon when all pass; it is a pure
function of the store and mutates nothing. -/
theorem c7_validate_checks (db : DB) (code : String) (now : Int) :
    (db.coupons.find? (fun c => c.code == toUpperCase code) = none →
      validateCoupon db code now = CouponResult.invalid CouponFailure.notFound) ∧
    (∀ c, db.coupons.find? (fun c => c.code == toUpperCase code) = some c →
      (c.isActive = false →
        validateCoupon db code now = CouponResult.invalid CouponFailure.inactive) ∧
      (c.isActive = true → c.expiresAt < now →
        validateCoupon db code now = CouponResult.invalid CouponFailure.expired) ∧
      (c.isActive = true → ¬ c.expiresAt < now → ∀ m, c.maxUses = some m → m ≤ c.usedCount →
        validateCoupon db code now = CouponResult.invalid CouponFailure.exhaustedUses) ∧
      (c.isActive = true → ¬ c.expiresAt < now →
        (∀ m, c.maxUses = some m → c.usedCount < m) →
        validateCoupon db code now = CouponResult.valid c)) := by
  constructor
  · intro h
    unfold validateCoupon
    rw [h]
  · intro c hfind
    refine ⟨?_, ?_, ?_, ?_⟩
    · intro hact
      unfold validateCoupon
      rw [hfind]
      simp [hact]
    · intro hact hexp
      unfold validateCoupon
      rw [hfind]
      simp [hact, hexp]
    · intro hact hexp m hm hle
      unfold validateCoupon
      rw [hfind]
      simp [hact, hexp, hm, hle]
    · intro hact hexp hlt
      unfold validateCoupon
      rw [hfind]
      rcases hm : c.maxUses with _ | m
      · simp [hact, hexp, hm]
      · have hnot : ¬ (c.usedCount ≥ m) := not_le.mpr (hlt m hm)
        simp [hact, hexp, hm, hnot]

/-- Witness for the amended C7: the coupon validates (lower-case code,
strictly before expiry). -/
theorem c7_validate_checks_witness :
    validateCoupon c7db "save" 50 = CouponResult.valid c7coupon :=
  ((c7_validate_checks c7db "save" 50).2 c7coupon rfl).2.2.2 rfl (by decide)
    (fun _ hm => Option.noConfusion hm)

/-- C8: with a matching pending payment, a transport-level gateway
failure surfaces as a generic server error with the store untouched (the
payment stays pending, so Confirm can be retried), while an explicit
gateway decline marks the payment failed, surfaces GatewayDeclined, and
grants no credits (users, history and coupons unchanged). -/
theorem c8_gateway_failure_modes (db : DB) (userId : Nat) (orderId paymentKey : String)
    (amount : Int) (payment : Payment)
    (hcond : ¬ (orderId = "" ∨ paymentKey = "" ∨ amount = 0))
    (hfind : db.payments.find? (fun p => p.orderId == orderId && p.userId == userId) = some payment)
    (hpending : payment.status = "pending") (hamt : payment.amount = amount) :
    (confirmPayment db userId orderId paymentKey amount GatewayOutcome.transportError
        = (db, Except.error PayError.serverError) ∧
      getPaymentStatus db userId orderId = some "pending") ∧
    (∀ msg,
      confirmPayment db userId orderId paymentKey amount (GatewayOutcome.declined msg)
        = ({ db with payments := updatePaymentById db.payments payment.id markFailed },
           Except.error PayError.gatewayDeclined) ∧
      getPaymentStatus { db with payments := updatePaymentById db.payments payment.id markFailed }
          userId orderId = some "failed" ∧
      ({ db with payments := updatePaymentById db.payments payment.id markFailed }).users
        = db.users ∧
      ({ db with payments := updatePaymentById db.payments payment.id markFailed }).creditHistory
        = db.creditHistory ∧
      ({ db with payments := updatePaymentById db.payments payment.id markFailed }).coupons
        = db.coupons) := by
  have hstc : (payment.status == "completed") = false := by
    rw [hpending]; rfl
  constructor
  · constructor
    · unfold confirmPayment
      rw [if_neg hcond, hfind]
      simp [hstc, hamt]
    · unfold getPaymentStatus
      rw [hfind]
      simp [hpending]
  · intro msg
    refine ⟨?_, ?_, rfl, rfl, rfl⟩
    · unfold confirmPayment
      rw [if_neg hcond, hfind]
      simp [hstc, hamt]
    · unfold getPaymentStatus
      dsimp only
      rw [find?_updatePaymentById db.payments payment.id markFailed (fun p => p.orderId == orderId && p.userId == userId) (fun _ => rfl), hfind]
      simp [markFailed]

/-- A store with one account and one matching pending payment for the
gateway-failure witness. -/
def c8db : DB :=
  ⟨[⟨1, 0⟩], [], [],
   [⟨10, "ORD8", 1, "business_plan_1", "AI 사업계획서 이용권 1회", 50000, 1, "pending", "card", none, none⟩],
   [], [], []⟩

/-- The pending payment stored in `c8db`. -/
def c8payment : Payment :=
  ⟨10, "ORD8", 1, "business_plan_1", "AI 사업계획서 이용권 1회", 50000, 1, "pending", "card", none, none⟩

/-- Witness for C8: a transport error leaves the store untouched and the
payment pending. -/
theorem c8_gateway_failure_modes_witness :
    confirmPayment c8db 1 "ORD8" "pk" 50000 GatewayOutcome.transportError
      = (c8db, Except.error PayError.serverError) ∧
    getPaymentStatus c8db 1 "ORD8" = some "pending" :=
  (c8_gateway_failure_modes c8db 1 "ORD8" "pk" 50000 c8payment (by decide) rfl rfl rfl).1

/-- The post-state of a successful reject: only the request row is
updated. -/
def rejectState (db : DB) (id : Nat) (note : Option String) : DB :=
  { db with paymentRequests := updateRequestById db.paymentRequests id (markRejected (jsOrNull note)) }

/-- C9: rejecting a payment request fails with NotFound when the id is
unknown and with AlreadyProcessed when the stored status is not pending,
leaving the store unchanged in both cases; on a pending request it only
flips the request's status to rejected and stores the optional admin
note (empty notes become null), never touching any account balance or
credit history. -/
theorem c9_reject_frame (db : DB) (id : Nat) (note : Option String) :
    (db.paymentRequests.find? (fun r => r.id == id) = none →
      rejectPaymentRequest db id note = (db, Except.error ReqError.notFound)) ∧
    (∀ pr, db.paymentRequests.find? (fun r => r.id == id) = some pr → pr.status ≠ "pending" →
      rejectPaymentRequest db id note = (db, Except.error ReqError.alreadyProcessed)) ∧
    (∀ pr, db.paymentRequests.find? (fun r => r.id == id) = some pr → pr.status = "pending" →
      rejectPaymentRequest db id note
        = (rejectState db id note, Except.ok (markRejected (jsOrNull note) pr)) ∧
      getRequestStatus (rejectState db id note) id = some "rejected" ∧
      (rejectState db id note).users = db.users ∧
      (rejectState db id note).creditHistory = db.creditHistory) := by
  refine ⟨?_, ?_, ?_⟩
  · intro h
    unfold rejectPaymentRequest
    rw [h]
  · intro pr hfind hne
    have hb : (pr.status != "pending") = true := by simp [hne]
    unfold rejectPaymentRequest
    rw [hfind]
    simp [hb]
  · intro pr hfind hpend
    have hb : (pr.status != "pending") = false := by simp [hpend]
    refine ⟨?_, ?_, rfl, rfl⟩
    · unfold rejectPaymentRequest rejectState
      rw [hfind]
      simp [hb]
    · unfold getRequestStatus rejectState
      dsimp only
      rw [find?_updateRequestById db.paymentRequests id (markRejected (jsOrNull note))
        (fun r => r.id == id) (fun _ => rfl), hfind]
      have hid : pr.id = id := by simpa using List.find?_some hfind
      simp [hid, markRejected]

/-- A store with one pending payment request. -/
def c9db : DB :=
  ⟨[⟨1, 0⟩], [], [], [], [⟨4, 1, "홍길동", 50000, 3, "pending", none⟩], [], []⟩

/-- The pending request stored in `c9db`. -/
def c9req : PaymentRequest := ⟨4, 1, "홍길동", 50000, 3, "pending", none⟩

/-- Witness for C9: rejecting the pending request flips its status only,
leaving users and credit history untouched. -/
theorem c9_reject_frame_witness :
    rejectPaymentRequest c9db 4 (some "중복 요청")
      = (rejectState c9db 4 (some "중복 요청"),
         Except.ok (markRejected (jsOrNull (some "중복 요청")) c9req)) ∧
    getRequestStatus (rejectState c9db 4 (some "중복 요청")) 4 = some "rejected" ∧
    (rejectState c9db 4 (some "중복 요청")).users = c9db.users ∧
    (rejectState c9db 4 (some "중복 요청")).creditHistory = c9db.creditHistory :=
  (c9_reject_frame c9db 4 (some "중복 요청")).2.2 c9req rfl rfl

theorem approve_ok_shape {db : DB} {id : Nat} {ov : Option Int} {db' : DB}
    {out : PaymentRequest}
    (h : approvePaymentRequest db id ov = (db', Except.ok out)) :
    ∃ pr, db.paymentRequests.find? (fun r => r.id == id) = some pr ∧
      (pr.status != "pending") = false ∧
      out = markApproved (jsOr ov pr.creditsToAdd) pr := by
  unfold approvePaymentRequest at h
  split at h
  · simp at h
  · next pr hfind =>
    split at h
    · simp at h
    · next hst =>
      rw [Prod.mk.injEq] at h
      obtain ⟨h1, h2⟩ := h
      injection h2 with h2
      exact ⟨pr, hfind, by simpa using hst, h2.symm⟩

/-- C10: a credit-amount override of 0 (or an absent override) on
approval is ignored in favour of the request's stored creditsToAdd
(`creditsToAdd || paymentRequest.creditsToAdd`); a submission without
creditsToAdd, or with 0, stores creditsToAdd = 1; the amount granted on
approval is `override || stored`, so approving while granting zero
credits is impossible whenever the stored amount is nonzero. -/
theorem c10_falsy_override_ignored :
    (∀ (db : DB) (id : Nat),
      approvePaymentRequest db id (some 0) = approvePaymentRequest db id none) ∧
    (∀ (db : DB) (userId : Nat) (name : String) (amount : Int) (newId : Nat)
        (c : Option Int) (db' : DB) (r : PaymentRequest),
      (c = none ∨ c = some 0) →
      submitPaymentRequest db userId name amount c newId = (db', Except.ok r) →
      r.creditsToAdd = 1) ∧
    (∀ (db : DB) (id : Nat) (ov : Option Int) (db' : DB) (out pr : PaymentRequest),
      db.paymentRequests.find? (fun r => r.id == id) = some pr →
      approvePaymentRequest db id ov = (db', Except.ok out) →
      out.creditsToAdd = jsOr ov pr.creditsToAdd) ∧
    (∀ (ov : Option Int) (stored : Int), stored ≠ 0 → jsOr ov stored ≠ 0) := by
  refine ⟨?_, ?_, ?_, ?_⟩
  · intro db id
    unfold approvePaymentRequest
    rcases hf : db.paymentRequests.find? (fun r => r.id == id) with _ | pr
    · rfl
    · dsimp only
      split
      · rfl
      · simp [jsOr]
  · intro db userId name amount newId c db' r hc hsub
    unfold submitPaymentRequest at hsub
    split at hsub
    · simp at hsub
    · split at hsub
      · simp at hsub
      · rw [Prod.mk.injEq] at hsub
        obtain ⟨h1, h2⟩ := hsub
        injection h2 with h2
        rw [← h2]
        rcases hc with rfl | rfl <;> simp [jsOr]
  · intro db id ov db' out pr hfind happ
    obtain ⟨pr0, hfind0, hst, rfl⟩ := approve_ok_shape happ
    rw [hfind] at hfind0
    injection hfind0 with hpr
    subst hpr
    rfl
  · intro ov stored h
    rcases ov with _ | n
    · simpa [jsOr] using h
    · by_cases hn : n = 0 <;> simp [jsOr, hn, h]

/-- A store with one pending payment request storing creditsToAdd = 3. -/
def c10db : DB :=
  ⟨[⟨1, 0⟩], [], [], [], [⟨4, 1, "김철수", 50000, 3, "pending", none⟩], [], []⟩

/-- The pending request stored in `c10db`. -/
def c10req : PaymentRequest := ⟨4, 1, "김철수", 50000, 3, "pending", none⟩

/-- The request row stored by a submission whose creditsToAdd input was
the falsy 0. -/
def c10subReq : PaymentRequest := ⟨9, 1, "김철수", 50000, 1, "pending", none⟩

/-- Witness for C10 at concrete stores: a 0 override equals no override,
a 0 submission stores 1 credit, the approval grant is `override ||
stored`, and a nonzero stored amount can never yield a zero grant. -/
theorem c10_falsy_override_ignored_witness :
    approvePaymentRequest c10db 4 (some 0) = approvePaymentRequest c10db 4 none ∧
    c10subReq.creditsToAdd = 1 ∧
    (markApproved (jsOr (some 7) 3) c10req).creditsToAdd = jsOr (some 7) c10req.creditsToAdd ∧
    jsOr (some 5) 3 ≠ 0 :=
  ⟨c10_falsy_override_ignored.1 c10db 4,
   c10_falsy_override_ignored.2.1 c10db 1 "김철수" 50000 9 (some 0)
     (submitPaymentRequest c10db 1 "김철수" 50000 (some 0) 9).1 c10subReq
     (Or.inr rfl) rfl,
   c10_falsy_override_ignored.2.2.1 c10db 4 (some 7)
     (approvePaymentRequest c10db 4 (some 7)).1 (markApproved (jsOr (some 7) 3) c10req) c10req
     rfl rfl,
   c10_falsy_override_ignored.2.2.2 (some 5) 3 (by decide)⟩

end Zerocraft
